import Mathlib

/-!
Verification development for `graffi-tui`, a terminal GraphQL dashboard.

The Rust sources embedded here:
  * `src/redux.rs`   — a minimal redux-style `Store` (state + reducer);
  * `src/main.rs`    — the application state, the reducer closure, the
    input-worker thread and the interaction loop;
  * `src/graphql.rs` — the hardcoded GraphQL request.

Machine integers are modelled as `Nat` with an explicit `% 2 ^ 16` where
`u16` overflow matters.  Terminal effects (raw mode, cursor) are modelled
as explicit fields of a terminal-state record.
-/

namespace Graffi

/-! ## Data model (src/main.rs, lines 24–103) -/

/-- `enum Event<I> { Input(I), Tick }` (main.rs lines 24–27). -/
inductive Event (I : Type) where
  | Input (i : I)
  | Tick
  deriving DecidableEq, Repr

/-- `enum ActiveMainPane { Left, Right }` (main.rs lines 29–33). -/
inductive ActiveMainPane where
  | Left
  | Right
  deriving DecidableEq, Repr

/-- `enum TabMenuItem { Execution(ActiveMainPane), Collection }` (main.rs lines 35–39). -/
inductive TabMenuItem where
  | Execution (pane : ActiveMainPane)
  | Collection
  deriving DecidableEq, Repr

/-- `enum ActiveWindow { Menu, URL, Main, Footer }` (main.rs lines 64–70). -/
inductive ActiveWindow where
  | Menu
  | URL
  | Main
  | Footer
  deriving DecidableEq, Repr

/-- `enum Mode { Normal, Insert }` (main.rs lines 72–76). -/
inductive Mode where
  | Normal
  | Insert
  deriving DecidableEq, Repr

/-- `enum Action { Noop, ChangeURI(String), ChangeMode(Mode), SetFirstRender }`
(main.rs lines 78–84). -/
inductive Action where
  | Noop
  | ChangeURI (uri : String)
  | ChangeMode (mode : Mode)
  | SetFirstRender
  deriving DecidableEq, Repr

/-- `struct AppState` (main.rs lines 86–92). -/
structure AppState where
  url_input : String
  active_window : ActiveWindow
  mode : Mode
  is_first_render : Bool
  deriving DecidableEq, Repr

/-- `impl Default for AppState` (main.rs lines 94–103). -/
def AppState.default : AppState :=
  { url_input := "https://rickandmortyapi.com/graphql"
    active_window := ActiveWindow.URL
    mode := Mode.Insert
    is_first_render := true }

/-! ## The Store (src/redux.rs) -/

/-- `struct Store<T, A>` (redux.rs lines 1–4): a state snapshot together
with the boxed reducer function. -/
structure Store (T A : Type) where
  state : T
  reducer : T → A → T

/-- `Store::new` (redux.rs lines 7–12). -/
def Store.new {T A : Type} (initial_state : T) (reducer : T → A → T) : Store T A :=
  { state := initial_state, reducer := reducer }

/-- `Store::dispatch` (redux.rs lines 14–18): replace the snapshot by the
reducer applied to the current snapshot and the action. -/
def Store.dispatch {T A : Type} (s : Store T A) (action : A) : Store T A :=
  { s with state := s.reducer s.state action }

/-- `Store::get_state` (redux.rs lines 20–22): return (a copy of) the snapshot. -/
def Store.get_state {T A : Type} (s : Store T A) : T :=
  s.state

/-! ## The reducer closure (src/main.rs, lines 119–136) -/

/-- The reducer closure passed to `redux::Store::new` in `main`
(main.rs lines 119–136). -/
def reducer (state : AppState) (action : Action) : AppState :=
  match action with
  | Action.Noop => state
  | Action.ChangeURI uri => { state with url_input := uri }
  | Action.ChangeMode mode => { state with mode := mode }
  | Action.SetFirstRender => { state with is_first_render := false }

/-! ## Cursor position (src/main.rs, lines 105–107) -/

/-- `fn get_position_x(input: String) -> u16` (main.rs lines 105–107):
`input.chars().count().try_into().unwrap_or(0) + 2`.  The character count
is converted to `u16` (counts above `65535` fall back to `0`), and the
`+ 2` is performed in `u16` arithmetic, modelled by `% 2 ^ 16`. -/
def get_position_x (input : String) : Nat :=
  ((if input.length ≤ 65535 then input.length else 0) + 2) % 2 ^ 16

/-! ## The GraphQL transport (src/graphql.rs) -/

namespace graphql

/-- `const API_URL` (graphql.rs line 5). -/
def API_URL : String := "https://rickandmortyapi.com/graphql"

/-- `const QUERY` (graphql.rs line 6): the hardcoded JSON request body. -/
def QUERY : String :=
  "\x7b\"operationName\":null,\"variables\":\x7b\x7d,\"query\":\"\x7b  character(id: 1) \x7b id name status \x7d\x7d\"\x7d"

/-- `struct Character` (graphql.rs lines 8–13). -/
structure Character where
  id : String
  name : String
  status : String
  deriving DecidableEq, Repr

/-- `struct CharacterDataField` (graphql.rs lines 15–18). -/
structure CharacterDataField where
  character : Character
  deriving DecidableEq, Repr

/-- `struct GraphQLResponse<T>` (graphql.rs lines 20–23). -/
structure GraphQLResponse (T : Type) where
  data : T
  deriving DecidableEq, Repr

/-- An outbound HTTP request, as assembled by `perform_graphql`. -/
structure Request where
  method : String
  url : String
  headers : List (String × String)
  body : String
  deriving DecidableEq, Repr

/-- The request issued by `perform_graphql` (graphql.rs lines 25–45):
a POST to the constant `API_URL` with JSON headers and the constant
`QUERY` body.  `perform_graphql` takes no parameters, so the request
is a constant. -/
def perform_graphql_request : Request :=
  { method := "POST"
    url := API_URL
    headers := [("Accept", "application/json"), ("Content-Type", "application/json")]
    body := QUERY }

end graphql

/-- The payload type of a successful fetch in `main`
(main.rs line 173: `Option<graphql::GraphQLResponse<graphql::CharacterDataField>>`). -/
abbrev Payload := graphql.GraphQLResponse graphql.CharacterDataField

/-- Transport failures (`Box<dyn Error>` in graphql.rs), kept abstract as a
message string. -/
abbrev FetchError := String

/-- The request issued when the interaction loop handles the space key from
an application state `s`: the call `graphql::perform_graphql()` (main.rs
line 319) passes no data from the state, so the issued request is
`perform_graphql_request` whatever `s` is. -/
def spaceFetchRequest (_ : AppState) : graphql.Request :=
  graphql.perform_graphql_request

/-! ## Keyboard events (crossterm, as consumed by src/main.rs) -/

/-- The `crossterm::event::KeyCode` variants the program matches on
(main.rs lines 303–346); all remaining variants behave identically and are
collapsed into `Other`. -/
inductive KeyCode where
  | Char (c : Char)
  | Esc
  | Backspace
  | Enter
  | Other
  deriving DecidableEq, Repr

/-- `crossterm::event::KeyEvent`, of which the program only ever reads the
`code` field. -/
structure KeyEvent where
  code : KeyCode
  deriving DecidableEq, Repr

/-- The `crossterm::event::Event` read by the input worker (main.rs line
156): key events are forwarded; every other variant is dropped. -/
inductive CEvent where
  | Key (k : KeyEvent)
  | NonKey
  deriving DecidableEq, Repr

/-! ## The input worker thread (src/main.rs, lines 143–167) -/

/-- `let tick_rate = Duration::from_millis(200)` (main.rs line 143),
in milliseconds. -/
def tick_rate : Nat := 200

/-- What one iteration of the worker loop produces: the events sent down
the channel in order, the updated `last_tick`, and the timeout the
keyboard was polled with. -/
structure WorkerResult where
  emitted : List (Event KeyEvent)
  lastTick : Nat
  timeout : Nat
  deriving DecidableEq, Repr

/-- One iteration of the input worker loop (main.rs lines 150–166).
Time is in milliseconds: `lastTick` is the current `last_tick`; `now0` is
the instant the timeout is computed (`last_tick.elapsed()` at line 152);
`polled` is what `event::poll`/`event::read` produced within the timeout
(`none` when the poll timed out); `now1` is the instant of the second
`last_tick.elapsed()` (line 161); `now2` is `Instant::now()` at line 163;
`sendOk` tells whether `tx.send(Event::Tick)` succeeded.
`Duration::checked_sub(..).unwrap_or(0)` is exactly truncated `Nat`
subtraction. -/
def workerIter (lastTick now0 : Nat) (polled : Option CEvent) (now1 now2 : Nat)
    (sendOk : Bool) : WorkerResult :=
  let timeout := tick_rate - (now0 - lastTick)
  let keyEmits : List (Event KeyEvent) :=
    match polled with
    | some (CEvent.Key k) => [Event.Input k]
    | _ => []
  if tick_rate ≤ now1 - lastTick then
    if sendOk then
      { emitted := keyEmits ++ [Event.Tick], lastTick := now2, timeout := timeout }
    else
      { emitted := keyEmits, lastTick := lastTick, timeout := timeout }
  else
    { emitted := keyEmits, lastTick := lastTick, timeout := timeout }

/-! ## The interaction loop (src/main.rs, lines 175–351) -/

/-- `String::pop` from Rust: remove the last character (no-op on the empty
string). -/
def popLast (s : String) : String :=
  String.mk s.data.dropLast

/-- The terminal resources the loop mutates: the raw-mode flag and the
cursor (visibility and position, as set by `terminal.set_cursor(x, y)`). -/
structure TermState where
  rawMode : Bool
  cursorVisible : Bool
  cursorX : Nat
  cursorY : Nat
  deriving DecidableEq, Repr

/-- The mutable state of one iteration of the interaction loop: the
store's application state (the reducer is the fixed closure `reducer`, see
`Store.new` at main.rs line 117), the loop-local tab selection
`active_menu_item` (line 171), the loop-local last query result `resp`
(line 173), and the terminal. -/
structure LoopState where
  state : AppState
  active_menu_item : TabMenuItem
  resp : Option Payload
  term : TermState
  deriving DecidableEq, Repr

/-- Control flow out of one loop iteration: keep looping, `break` (the `q`
path, after which `main` returns `Ok(())`), or an error propagated by `?`
(the transport-failure path). -/
inductive Ctl where
  | cont
  | quit
  | fatal (e : FetchError)
  deriving DecidableEq, Repr

/-- The result of one step: the updated loop state, the control flow, and
the list of actions dispatched to the store during the step, in order. -/
structure StepRes where
  ls : LoopState
  ctl : Ctl
  dispatched : List Action
  deriving DecidableEq, Repr

/-- The process exit code determined by the control flow: `main` returns
`Ok(())` on `break` (exit code 0) and `Err(..)` on a propagated error
(exit code 1); `none` while the loop continues. -/
def exitCode : Ctl → Option Nat
  | Ctl.cont => none
  | Ctl.quit => some 0
  | Ctl.fatal _ => some 1

/-- Modelled from the `tui` library (not part of this repository):
`tui::Terminal`'s `Drop` implementation runs at the end of `main` and calls
`show_cursor` whenever the cursor was left hidden, so the cursor is visible
once the process exits. -/
def terminalDropRestore (t : TermState) : TermState :=
  { t with cursorVisible := true }

/-- The Normal-mode key match (main.rs lines 303–323).  `fetch` is the
outcome of `graphql::perform_graphql()` if the space arm runs it. -/
def handleNormalKey (ls : LoopState) (code : KeyCode)
    (fetch : Except FetchError Payload) : StepRes :=
  match code with
  | KeyCode.Char c =>
    if c = 'q' then
      { ls := { ls with term := { ls.term with rawMode := false } }
        ctl := Ctl.quit, dispatched := [] }
    else if c = 'c' then
      { ls := { ls with active_menu_item := TabMenuItem.Collection }
        ctl := Ctl.cont, dispatched := [] }
    else if c = 'i' then
      { ls := { ls with state := reducer ls.state (Action.ChangeMode Mode.Insert) }
        ctl := Ctl.cont, dispatched := [Action.ChangeMode Mode.Insert] }
    else if c = 'e' then
      { ls := { ls with active_menu_item := TabMenuItem.Execution ActiveMainPane.Left }
        ctl := Ctl.cont, dispatched := [] }
    else if c = ' ' then
      match fetch with
      | Except.ok payload =>
        { ls := { ls with resp := some payload }, ctl := Ctl.cont, dispatched := [] }
      | Except.error e => { ls := ls, ctl := Ctl.fatal e, dispatched := [] }
    else { ls := ls, ctl := Ctl.cont, dispatched := [] }
  | _ => { ls := ls, ctl := Ctl.cont, dispatched := [] }

/-- The Insert-mode key match (main.rs lines 327–347). -/
def handleInsertKey (ls : LoopState) (code : KeyCode) : StepRes :=
  match code with
  | KeyCode.Esc =>
    { ls := { ls with
        term := { ls.term with cursorVisible := false }
        state := reducer ls.state (Action.ChangeMode Mode.Normal) }
      ctl := Ctl.cont, dispatched := [Action.ChangeMode Mode.Normal] }
  | KeyCode.Char c =>
    let url := ls.state.url_input.push c
    { ls := { ls with state := reducer ls.state (Action.ChangeURI url) }
      ctl := Ctl.cont, dispatched := [Action.ChangeURI url] }
  | KeyCode.Backspace =>
    let url := popLast ls.state.url_input
    { ls := { ls with state := reducer ls.state (Action.ChangeURI url) }
      ctl := Ctl.cont, dispatched := [Action.ChangeURI url] }
  | _ => { ls := ls, ctl := Ctl.cont, dispatched := [] }

/-- Consuming one event from the channel (main.rs lines 301–350): the
match is on the current mode first, then on the received event; `Tick`
events fall to the `_ => {}` arm in both modes. -/
def handleEvent (ls : LoopState) (ev : Event KeyEvent)
    (fetch : Except FetchError Payload) : StepRes :=
  match ls.state.mode with
  | Mode.Normal =>
    match ev with
    | Event.Input k => handleNormalKey ls k.code fetch
    | Event.Tick => { ls := ls, ctl := Ctl.cont, dispatched := [] }
  | Mode.Insert =>
    match ev with
    | Event.Input k => handleInsertKey ls k.code
    | Event.Tick => { ls := ls, ctl := Ctl.cont, dispatched := [] }

/-- The render phase of one iteration (main.rs lines 176–299):
`terminal.draw` reads the state and mutates nothing; then the cursor is
positioned and shown when the mode is Insert and hidden otherwise (lines
284–291); then, on the first render only, the cursor is positioned again
and `SetFirstRender` is dispatched (lines 293–299).  Returns the updated
loop state and the actions dispatched. -/
def renderPhase (ls : LoopState) : LoopState × List Action :=
  let t1 :=
    if ls.state.mode = Mode.Insert then
      { ls.term with
        cursorX := get_position_x ls.state.url_input
        cursorY := 6
        cursorVisible := true }
    else { ls.term with cursorVisible := false }
  if ls.state.is_first_render then
    ({ ls with
        term := { t1 with cursorX := get_position_x ls.state.url_input, cursorY := 6 }
        state := reducer ls.state Action.SetFirstRender },
      [Action.SetFirstRender])
  else ({ ls with term := t1 }, [])

/-- One full iteration of the interaction loop: render phase, then consume
one event. -/
def iterate (ls : LoopState) (ev : Event KeyEvent)
    (fetch : Except FetchError Payload) : StepRes :=
  let rp := renderPhase ls
  let r := handleEvent rp.1 ev fetch
  { ls := r.ls, ctl := r.ctl, dispatched := rp.2 ++ r.dispatched }

/-- Running the interaction loop over a list of inputs (one consumed event
plus, for the space arm, the transport outcome, per iteration), stopping
when an iteration breaks or propagates an error.  Returns the final loop
state and all dispatched actions in order. -/
def runLoop : LoopState → List (Event KeyEvent × Except FetchError Payload) →
    LoopState × List Action
  | ls, [] => (ls, [])
  | ls, (ev, f) :: rest =>
    let r := iterate ls ev f
    match r.ctl with
    | Ctl.cont =>
      let rst := runLoop r.ls rest
      (rst.1, r.dispatched ++ rst.2)
    | _ => (r.ls, r.dispatched)

/-- The loop state at the top of the first iteration: the default
application state in the store (main.rs line 118), the Execution tab with
the left pane (line 171), no response yet (line 173), raw mode enabled
(line 139), cursor as the terminal starts (visible). -/
def initialLoopState : LoopState :=
  { state := AppState.default
    active_menu_item := TabMenuItem.Execution ActiveMainPane.Left
    resp := none
    term := { rawMode := true, cursorVisible := true, cursorX := 0, cursorY := 0 } }

/-- Whether an action is `SetFirstRender`. -/
def isSetFirstRender : Action → Bool
  | Action.SetFirstRender => true
  | _ => false

/-- How many `SetFirstRender` actions a list of dispatched actions holds. -/
def countSFR (l : List Action) : Nat :=
  l.countP isSetFirstRender

/-- A concrete parsed payload, used to instantiate transport outcomes. -/
def samplePayload : Payload :=
  { data := { character := { id := "1", name := "Rick Sanchez", status := "Alive" } } }

/-- A loop state in Normal mode after the first render, as reached by
pressing Escape once. -/
def normalLoopState : LoopState :=
  { initialLoopState with
      state := { AppState.default with mode := Mode.Normal, is_first_render := false } }

/-! ## Helper lemmas about the loop phases -/

theorem handleNormalKey_active_window (ls : LoopState) (code : KeyCode)
    (f : Except FetchError Payload) :
    (handleNormalKey ls code f).ls.state.active_window = ls.state.active_window := by
  cases code with
  | Char c =>
    simp only [handleNormalKey]
    split_ifs <;> first | rfl | (cases f <;> rfl)
  | Esc => rfl
  | Backspace => rfl
  | Enter => rfl
  | Other => rfl

theorem handleNormalKey_is_first_render (ls : LoopState) (code : KeyCode)
    (f : Except FetchError Payload) :
    (handleNormalKey ls code f).ls.state.is_first_render = ls.state.is_first_render := by
  cases code with
  | Char c =>
    simp only [handleNormalKey]
    split_ifs <;> first | rfl | (cases f <;> rfl)
  | Esc => rfl
  | Backspace => rfl
  | Enter => rfl
  | Other => rfl

theorem handleNormalKey_no_sfr (ls : LoopState) (code : KeyCode)
    (f : Except FetchError Payload) :
    countSFR (handleNormalKey ls code f).dispatched = 0 := by
  cases code with
  | Char c =>
    simp only [handleNormalKey]
    split_ifs <;> first | rfl | (cases f <;> rfl)
  | Esc => rfl
  | Backspace => rfl
  | Enter => rfl
  | Other => rfl

theorem handleInsertKey_active_window (ls : LoopState) (code : KeyCode) :
    (handleInsertKey ls code).ls.state.active_window = ls.state.active_window := by
  cases code <;> rfl

theorem handleInsertKey_is_first_render (ls : LoopState) (code : KeyCode) :
    (handleInsertKey ls code).ls.state.is_first_render = ls.state.is_first_render := by
  cases code <;> rfl

theorem handleInsertKey_no_sfr (ls : LoopState) (code : KeyCode) :
    countSFR (handleInsertKey ls code).dispatched = 0 := by
  cases code <;> rfl

theorem handleInsertKey_ctl (ls : LoopState) (code : KeyCode) :
    (handleInsertKey ls code).ctl = Ctl.cont := by
  cases code <;> rfl

theorem handleEvent_active_window (ls : LoopState) (ev : Event KeyEvent)
    (f : Except FetchError Payload) :
    (handleEvent ls ev f).ls.state.active_window = ls.state.active_window := by
  unfold handleEvent
  cases hm : ls.state.mode <;> cases ev
  · exact handleNormalKey_active_window ls _ f
  · rfl
  · exact handleInsertKey_active_window ls _
  · rfl

theorem handleEvent_is_first_render (ls : LoopState) (ev : Event KeyEvent)
    (f : Except FetchError Payload) :
    (handleEvent ls ev f).ls.state.is_first_render = ls.state.is_first_render := by
  unfold handleEvent
  cases hm : ls.state.mode <;> cases ev
  · exact handleNormalKey_is_first_render ls _ f
  · rfl
  · exact handleInsertKey_is_first_render ls _
  · rfl

theorem handleEvent_no_sfr (ls : LoopState) (ev : Event KeyEvent)
    (f : Except FetchError Payload) :
    countSFR (handleEvent ls ev f).dispatched = 0 := by
  unfold handleEvent
  cases hm : ls.state.mode <;> cases ev
  · exact handleNormalKey_no_sfr ls _ f
  · rfl
  · exact handleInsertKey_no_sfr ls _
  · rfl

theorem renderPhase_mode (ls : LoopState) :
    (renderPhase ls).1.state.mode = ls.state.mode := by
  unfold renderPhase
  split <;> split <;> rfl

theorem renderPhase_url (ls : LoopState) :
    (renderPhase ls).1.state.url_input = ls.state.url_input := by
  unfold renderPhase
  split <;> split <;> rfl

theorem renderPhase_active_window (ls : LoopState) :
    (renderPhase ls).1.state.active_window = ls.state.active_window := by
  unfold renderPhase
  split <;> split <;> rfl

theorem renderPhase_menu (ls : LoopState) :
    (renderPhase ls).1.active_menu_item = ls.active_menu_item := by
  unfold renderPhase
  split <;> split <;> rfl

theorem renderPhase_resp (ls : LoopState) :
    (renderPhase ls).1.resp = ls.resp := by
  unfold renderPhase
  split <;> split <;> rfl

theorem renderPhase_is_first_render (ls : LoopState) :
    (renderPhase ls).1.state.is_first_render = false := by
  unfold renderPhase
  rcases hf : ls.state.is_first_render <;> split <;> simp [reducer, hf]

theorem renderPhase_actions (ls : LoopState) :
    (renderPhase ls).2 = if ls.state.is_first_render then [Action.SetFirstRender] else [] := by
  unfold renderPhase
  rcases hf : ls.state.is_first_render <;> split <;> simp [hf]

theorem iterate_is_first_render (ls : LoopState) (ev : Event KeyEvent)
    (f : Except FetchError Payload) :
    (iterate ls ev f).ls.state.is_first_render = false := by
  unfold iterate
  rw [handleEvent_is_first_render, renderPhase_is_first_render]

theorem iterate_active_window (ls : LoopState) (ev : Event KeyEvent)
    (f : Except FetchError Payload) :
    (iterate ls ev f).ls.state.active_window = ls.state.active_window := by
  unfold iterate
  rw [handleEvent_active_window, renderPhase_active_window]

theorem iterate_count_sfr (ls : LoopState) (ev : Event KeyEvent)
    (f : Except FetchError Payload) :
    countSFR (iterate ls ev f).dispatched
      = if ls.state.is_first_render then 1 else 0 := by
  unfold iterate
  show countSFR ((renderPhase ls).2 ++ (handleEvent (renderPhase ls).1 ev f).dispatched) = _
  unfold countSFR
  rw [List.countP_append]
  have h2 := handleEvent_no_sfr (renderPhase ls).1 ev f
  unfold countSFR at h2
  rw [h2, renderPhase_actions]
  rcases ls.state.is_first_render <;> simp [isSetFirstRender]

/-! ## Theorems -/

/-- C1: For every state and every action, the reducer applied by
`Store.dispatch` behaves exactly as: `Noop` returns the state unchanged;
`ChangeURI u` replaces `url_input` and leaves every other field unchanged;
`ChangeMode m` replaces `mode` and leaves every other field unchanged;
`SetFirstRender` sets `is_first_render` to `false` and leaves every other
field unchanged; and the reducer is a pure function of the
`(state, action)` pair. -/
theorem dispatch_reducer_cases (s : AppState) :
    (((Store.new s reducer).dispatch Action.Noop).get_state = s)
    ∧ (∀ u : String,
        (((Store.new s reducer).dispatch (Action.ChangeURI u)).get_state.url_input = u)
        ∧ (((Store.new s reducer).dispatch (Action.ChangeURI u)).get_state.active_window
            = s.active_window)
        ∧ (((Store.new s reducer).dispatch (Action.ChangeURI u)).get_state.mode = s.mode)
        ∧ (((Store.new s reducer).dispatch (Action.ChangeURI u)).get_state.is_first_render
            = s.is_first_render))
    ∧ (∀ m : Mode,
        (((Store.new s reducer).dispatch (Action.ChangeMode m)).get_state.mode = m)
        ∧ (((Store.new s reducer).dispatch (Action.ChangeMode m)).get_state.url_input
            = s.url_input)
        ∧ (((Store.new s reducer).dispatch (Action.ChangeMode m)).get_state.active_window
            = s.active_window)
        ∧ (((Store.new s reducer).dispatch (Action.ChangeMode m)).get_state.is_first_render
            = s.is_first_render))
    ∧ ((((Store.new s reducer).dispatch Action.SetFirstRender).get_state.is_first_render
          = false)
        ∧ (((Store.new s reducer).dispatch Action.SetFirstRender).get_state.url_input
            = s.url_input)
        ∧ (((Store.new s reducer).dispatch Action.SetFirstRender).get_state.active_window
            = s.active_window)
        ∧ (((Store.new s reducer).dispatch Action.SetFirstRender).get_state.mode = s.mode))
    ∧ (∀ (s1 s2 : AppState) (a1 a2 : Action), s1 = s2 → a1 = a2 →
        reducer s1 a1 = reducer s2 a2) := by
  refine ⟨rfl, fun u => ⟨rfl, rfl, rfl, rfl⟩, fun m => ⟨rfl, rfl, rfl, rfl⟩,
    ⟨rfl, rfl, rfl, rfl⟩, ?_⟩
  intro s1 s2 a1 a2 h1 h2
  rw [h1, h2]

/-- Witness for C1 at the default state: `Noop` is the identity and
`ChangeURI` replaces the URL text. -/
theorem dispatch_reducer_cases_witness :
    (((Store.new AppState.default reducer).dispatch Action.Noop).get_state = AppState.default)
    ∧ (((Store.new AppState.default reducer).dispatch
        (Action.ChangeURI "http://localhost")).get_state.url_input = "http://localhost") := by
  have h := dispatch_reducer_cases AppState.default
  exact ⟨h.1, (h.2.1 "http://localhost").1⟩

/-- C2: in Insert mode, a printable-character key appends exactly that
character to `url_input` (all other fields unchanged); Backspace removes
exactly the last character; Backspace on an empty `url_input` leaves the
state unchanged; and in the concrete scenario starting from the default
URL, pressing `x` then Backspace restores the original string, and Escape
then sets the mode to `Normal`. -/
theorem insert_mode_editing (ls : LoopState) (f : Except FetchError Payload)
    (h : ls.state.mode = Mode.Insert) :
    (∀ c : Char,
      ((handleEvent ls (Event.Input ⟨KeyCode.Char c⟩) f).ls.state.url_input.data
          = ls.state.url_input.data ++ [c])
      ∧ ((handleEvent ls (Event.Input ⟨KeyCode.Char c⟩) f).ls.state.mode = ls.state.mode)
      ∧ ((handleEvent ls (Event.Input ⟨KeyCode.Char c⟩) f).ls.state.active_window
          = ls.state.active_window)
      ∧ ((handleEvent ls (Event.Input ⟨KeyCode.Char c⟩) f).ls.state.is_first_render
          = ls.state.is_first_render))
    ∧ ((handleEvent ls (Event.Input ⟨KeyCode.Backspace⟩) f).ls.state.url_input.data
        = ls.state.url_input.data.dropLast)
    ∧ (∀ (pre : List Char) (last : Char), ls.state.url_input.data = pre ++ [last] →
        (handleEvent ls (Event.Input ⟨KeyCode.Backspace⟩) f).ls.state.url_input.data = pre)
    ∧ (ls.state.url_input = "" →
        (handleEvent ls (Event.Input ⟨KeyCode.Backspace⟩) f).ls = ls)
    ∧ ((handleEvent initialLoopState (Event.Input ⟨KeyCode.Char 'x'⟩) f).ls.state.url_input
        = "https://rickandmortyapi.com/graphqlx")
    ∧ ((handleEvent (handleEvent initialLoopState (Event.Input ⟨KeyCode.Char 'x'⟩) f).ls
          (Event.Input ⟨KeyCode.Backspace⟩) f).ls.state.url_input
        = "https://rickandmortyapi.com/graphql")
    ∧ ((handleEvent (handleEvent (handleEvent initialLoopState
            (Event.Input ⟨KeyCode.Char 'x'⟩) f).ls
          (Event.Input ⟨KeyCode.Backspace⟩) f).ls
          (Event.Input ⟨KeyCode.Esc⟩) f).ls.state.mode
        = Mode.Normal) := by
  refine ⟨?_, ?_, ?_, ?_, ?_, ?_, ?_⟩
  · intro c
    simp [handleEvent, h, handleInsertKey, reducer, String.data_push]
  · simp [handleEvent, h, handleInsertKey, reducer, popLast]
  · intro pre last hp
    simp [handleEvent, h, handleInsertKey, reducer, popLast, hp]
  · intro hempty
    obtain ⟨⟨u, w, m, fr⟩, menu, resp, term⟩ := ls
    have hu : u = "" := hempty
    subst hu
    have hm : m = Mode.Insert := h
    subst hm
    rfl
  · rfl
  · rfl
  · rfl

/-- Witness for C2 at the initial state (Insert mode, default URL):
pressing `x` appends `x`, and Backspace on it restores the default URL. -/
theorem insert_mode_editing_witness :
    ((handleEvent initialLoopState (Event.Input ⟨KeyCode.Char 'x'⟩)
        (Except.ok samplePayload)).ls.state.url_input
      = "https://rickandmortyapi.com/graphqlx")
    ∧ ((handleEvent initialLoopState (Event.Input ⟨KeyCode.Char 'x'⟩)
        (Except.ok samplePayload)).ls.state.url_input.data
      = initialLoopState.state.url_input.data ++ ['x']) := by
  have h := insert_mode_editing initialLoopState (Except.ok samplePayload) rfl
  exact ⟨h.2.2.2.2.1, (h.1 'x').1⟩

/-- C3: in Normal mode, `i` dispatches `ChangeMode Insert` and changes
nothing else; `c` selects the Collection tab without dispatching; `e`
selects the Execution tab (left pane) without dispatching; space replaces
the query result wholesale on a successful fetch and propagates the error
out of the loop on a failed one; every other key (and a `Tick`) leaves the
application state and the loop-local values unchanged. -/
theorem normal_mode_commands (ls : LoopState) (f : Except FetchError Payload)
    (h : ls.state.mode = Mode.Normal) :
    (((handleEvent ls (Event.Input ⟨KeyCode.Char 'i'⟩) f).ls.state.mode = Mode.Insert)
      ∧ ((handleEvent ls (Event.Input ⟨KeyCode.Char 'i'⟩) f).ls.state.url_input
          = ls.state.url_input)
      ∧ ((handleEvent ls (Event.Input ⟨KeyCode.Char 'i'⟩) f).ls.state.active_window
          = ls.state.active_window)
      ∧ ((handleEvent ls (Event.Input ⟨KeyCode.Char 'i'⟩) f).ls.state.is_first_render
          = ls.state.is_first_render)
      ∧ ((handleEvent ls (Event.Input ⟨KeyCode.Char 'i'⟩) f).ls.active_menu_item
          = ls.active_menu_item)
      ∧ ((handleEvent ls (Event.Input ⟨KeyCode.Char 'i'⟩) f).ls.resp = ls.resp)
      ∧ ((handleEvent ls (Event.Input ⟨KeyCode.Char 'i'⟩) f).dispatched
          = [Action.ChangeMode Mode.Insert])
      ∧ ((handleEvent ls (Event.Input ⟨KeyCode.Char 'i'⟩) f).ctl = Ctl.cont))
    ∧ (((handleEvent ls (Event.Input ⟨KeyCode.Char 'c'⟩) f).ls
          = { ls with active_menu_item := TabMenuItem.Collection })
      ∧ ((handleEvent ls (Event.Input ⟨KeyCode.Char 'c'⟩) f).dispatched = [])
      ∧ ((handleEvent ls (Event.Input ⟨KeyCode.Char 'c'⟩) f).ctl = Ctl.cont))
    ∧ (((handleEvent ls (Event.Input ⟨KeyCode.Char 'e'⟩) f).ls
          = { ls with active_menu_item := TabMenuItem.Execution ActiveMainPane.Left })
      ∧ ((handleEvent ls (Event.Input ⟨KeyCode.Char 'e'⟩) f).dispatched = [])
      ∧ ((handleEvent ls (Event.Input ⟨KeyCode.Char 'e'⟩) f).ctl = Ctl.cont))
    ∧ ((∀ p : Payload, f = Except.ok p →
          ((handleEvent ls (Event.Input ⟨KeyCode.Char ' '⟩) f).ls
              = { ls with resp := some p }
            ∧ (handleEvent ls (Event.Input ⟨KeyCode.Char ' '⟩) f).dispatched = []
            ∧ (handleEvent ls (Event.Input ⟨KeyCode.Char ' '⟩) f).ctl = Ctl.cont))
      ∧ (∀ e : FetchError, f = Except.error e →
          ((handleEvent ls (Event.Input ⟨KeyCode.Char ' '⟩) f).ctl = Ctl.fatal e
            ∧ (handleEvent ls (Event.Input ⟨KeyCode.Char ' '⟩) f).ls = ls
            ∧ (handleEvent ls (Event.Input ⟨KeyCode.Char ' '⟩) f).dispatched = [])))
    ∧ (∀ c : Char, c ≠ 'i' → c ≠ 'c' → c ≠ 'e' → c ≠ ' ' →
        ((handleEvent ls (Event.Input ⟨KeyCode.Char c⟩) f).ls.state = ls.state
          ∧ (handleEvent ls (Event.Input ⟨KeyCode.Char c⟩) f).ls.active_menu_item
              = ls.active_menu_item
          ∧ (handleEvent ls (Event.Input ⟨KeyCode.Char c⟩) f).ls.resp = ls.resp
          ∧ (handleEvent ls (Event.Input ⟨KeyCode.Char c⟩) f).dispatched = []))
    ∧ (∀ k : KeyCode, k = KeyCode.Esc ∨ k = KeyCode.Backspace ∨ k = KeyCode.Enter
          ∨ k = KeyCode.Other →
        ((handleEvent ls (Event.Input ⟨k⟩) f).ls = ls
          ∧ (handleEvent ls (Event.Input ⟨k⟩) f).dispatched = []
          ∧ (handleEvent ls (Event.Input ⟨k⟩) f).ctl = Ctl.cont))
    ∧ (((handleEvent ls Event.Tick f).ls = ls)
      ∧ ((handleEvent ls Event.Tick f).dispatched = [])
      ∧ ((handleEvent ls Event.Tick f).ctl = Ctl.cont)) := by
  refine ⟨?_, ?_, ?_, ⟨?_, ?_⟩, ?_, ?_, ?_⟩
  · simp [handleEvent, h, handleNormalKey, reducer]
  · simp [handleEvent, h, handleNormalKey]
  · simp [handleEvent, h, handleNormalKey]
  · intro p hp
    subst hp
    simp [handleEvent, h, handleNormalKey]
  · intro e he
    subst he
    simp [handleEvent, h, handleNormalKey]
  · intro c h1 h2 h3 h4
    by_cases hq : c = 'q'
    · subst hq
      simp [handleEvent, h, handleNormalKey]
    · simp [handleEvent, h, handleNormalKey, hq, h1, h2, h3, h4]
  · intro k hk
    rcases hk with hk | hk | hk | hk <;> subst hk <;>
      simp [handleEvent, h, handleNormalKey]
  · simp [handleEvent, h]

/-- Witness for C3 at a concrete Normal-mode state: `i` switches the mode
to Insert, and space on a successful fetch stores the payload. -/
theorem normal_mode_commands_witness :
    ((handleEvent normalLoopState (Event.Input ⟨KeyCode.Char 'i'⟩)
        (Except.ok samplePayload)).ls.state.mode = Mode.Insert)
    ∧ ((handleEvent normalLoopState (Event.Input ⟨KeyCode.Char ' '⟩)
        (Except.ok samplePayload)).ls = { normalLoopState with resp := some samplePayload }) := by
  have h := normal_mode_commands normalLoopState (Except.ok samplePayload) rfl
  exact ⟨h.1.1, (h.2.2.2.1.1 samplePayload rfl).1⟩

/-- C6: dispatching `ChangeMode Insert` in a state whose mode is already
`Insert` yields a state equal to the prior one, and dispatching
`ChangeMode m` twice in succession yields the same state as dispatching it
once. -/
theorem change_mode_idempotent (s : AppState) :
    (s.mode = Mode.Insert →
      ((Store.new s reducer).dispatch (Action.ChangeMode Mode.Insert)).get_state = s)
    ∧ (∀ m : Mode,
        (((Store.new s reducer).dispatch (Action.ChangeMode m)).dispatch
            (Action.ChangeMode m)).get_state
          = ((Store.new s reducer).dispatch (Action.ChangeMode m)).get_state) := by
  constructor
  · intro hm
    obtain ⟨u, w, m, f⟩ := s
    have hm2 : m = Mode.Insert := hm
    subst hm2
    rfl
  · intro m
    rfl

/-- Witness for C6: at the default state (whose mode is `Insert`),
redundantly dispatching `ChangeMode Insert` is the identity. -/
theorem change_mode_idempotent_witness :
    ((Store.new AppState.default reducer).dispatch
        (Action.ChangeMode Mode.Insert)).get_state = AppState.default := by
  exact (change_mode_idempotent AppState.default).1 rfl

/-- C8: the query transport call is independent of `url_input`: for any
two application states that differ only in `url_input`, the issued request
is identical, and it is the hardcoded POST to `API_URL` with the hardcoded
`QUERY` body. -/
theorem fetch_ignores_url_input (s1 s2 : AppState)
    (_hw : s1.active_window = s2.active_window) (_hm : s1.mode = s2.mode)
    (_hf : s1.is_first_render = s2.is_first_render) :
    (spaceFetchRequest s1 = spaceFetchRequest s2)
    ∧ ((spaceFetchRequest s1).url = "https://rickandmortyapi.com/graphql")
    ∧ ((spaceFetchRequest s1).url = graphql.API_URL)
    ∧ ((spaceFetchRequest s1).body = graphql.QUERY)
    ∧ ((spaceFetchRequest s1).method = "POST") :=
  ⟨rfl, rfl, rfl, rfl, rfl⟩

/-- Witness for C8: two concrete states differing only in `url_input`
issue the same request. -/
theorem fetch_ignores_url_input_witness :
    spaceFetchRequest AppState.default
      = spaceFetchRequest { AppState.default with url_input := "http://example.org" }
    ∧ (spaceFetchRequest AppState.default).url = "https://rickandmortyapi.com/graphql" := by
  have h := fetch_ignores_url_input AppState.default
    { AppState.default with url_input := "http://example.org" } rfl rfl rfl
  exact ⟨h.1, h.2.1⟩

/-- Helper: `get_position_x` on any string of exactly 65534 characters is
`0`: the count converts to `u16` but the `+ 2` wraps. -/
theorem get_position_x_at_65534 (s : String) (h : s.length = 65534) :
    get_position_x s = 0 := by
  unfold get_position_x
  rw [h]
  norm_num

/-- C9 counterexample: a string of 65534 characters has a character count
that fits in 16 bits, yet `get_position_x` returns `0`, not the character
count plus 2 — the `u16` addition `65534 + 2` wraps around to `0`. -/
theorem cursor_position_counterexample :
    ((String.mk (List.replicate 65534 'a')).length ≤ 65535)
    ∧ (get_position_x (String.mk (List.replicate 65534 'a')) = 0)
    ∧ (get_position_x (String.mk (List.replicate 65534 'a'))
        ≠ (String.mk (List.replicate 65534 'a')).length + 2) := by
  have hl : (String.mk (List.replicate 65534 'a')).length = 65534 := by
    rw [String.length_mk, List.length_replicate]
  have hp := get_position_x_at_65534 (String.mk (List.replicate 65534 'a')) hl
  refine ⟨hl.le.trans (by norm_num), hp, ?_⟩
  rw [hp, hl]
  norm_num

/-- C9 (amended): on every iteration, if the mode is `Insert` the text
cursor is shown and positioned at `get_position_x url_input`, and if the
mode is not `Insert` the cursor is hidden; `get_position_x s` equals the
character count of `s` plus 2 for every string whose character count plus
2 fits in 16 bits (counts above 65533 wrap in the `u16` addition, and
counts above 65535 convert to 0). -/
theorem cursor_position_spec (ls : LoopState) :
    (ls.state.mode = Mode.Insert →
      ((renderPhase ls).1.term.cursorVisible = true
        ∧ (renderPhase ls).1.term.cursorX = get_position_x ls.state.url_input))
    ∧ (ls.state.mode ≠ Mode.Insert → (renderPhase ls).1.term.cursorVisible = false)
    ∧ (∀ s : String, s.length + 2 ≤ 65535 → get_position_x s = s.length + 2) := by
  refine ⟨?_, ?_, ?_⟩
  · intro h
    unfold renderPhase
    rw [if_pos h]
    split <;> exact ⟨rfl, rfl⟩
  · intro h
    unfold renderPhase
    rw [if_neg h]
    split <;> rfl
  · intro s hs
    unfold get_position_x
    rw [if_pos (by omega : s.length ≤ 65535)]
    have h16 : (2 : Nat) ^ 16 = 65536 := by norm_num
    rw [h16]
    exact Nat.mod_eq_of_lt (by omega)

/-- Witness for C9 (amended): at the initial loop state (Insert mode,
default URL of 35 characters) the render phase shows the cursor at
column 37. -/
theorem cursor_position_spec_witness :
    ((renderPhase initialLoopState).1.term.cursorVisible = true)
    ∧ ((renderPhase initialLoopState).1.term.cursorX = 37)
    ∧ (get_position_x "https://rickandmortyapi.com/graphql" = 37) := by
  have h := cursor_position_spec initialLoopState
  have h1 := h.1 rfl
  have h2 := h.2.2 "https://rickandmortyapi.com/graphql" (by decide)
  refine ⟨h1.1, ?_, ?_⟩
  · rw [h1.2]
    exact h2
  · exact h2

/-- Helper: in Normal mode, the only event giving the `quit` control flow
is the `q` key, and on that path raw mode has been disabled. -/
theorem handleEvent_quit (ls : LoopState) (ev : Event KeyEvent)
    (f : Except FetchError Payload) :
    ((handleEvent ls ev f).ctl = Ctl.quit ↔
      (ls.state.mode = Mode.Normal ∧ ev = Event.Input ⟨KeyCode.Char 'q'⟩))
    ∧ ((handleEvent ls ev f).ctl = Ctl.quit →
        (handleEvent ls ev f).ls.term.rawMode = false)
    ∧ (ls.state.mode = Mode.Insert → (handleEvent ls ev f).ctl = Ctl.cont) := by
  unfold handleEvent
  cases hm : ls.state.mode <;> cases ev
  case Normal.Input k =>
    obtain ⟨code⟩ := k
    cases code with
    | Char c =>
      by_cases hq : c = 'q'
      · subst hq
        simp [handleNormalKey]
      · simp only [handleNormalKey]
        rw [if_neg hq]
        split_ifs <;> cases f <;> simp [hq]
    | Esc => simp [handleNormalKey]
    | Backspace => simp [handleNormalKey]
    | Enter => simp [handleNormalKey]
    | Other => simp [handleNormalKey]
  case Normal.Tick => simp
  case Insert.Input k =>
    rw [handleInsertKey_ctl]
    simp [hm]
  case Insert.Tick => simp [hm]

/-- C4: one loop iteration breaks out of the loop (clean termination) if
and only if the consumed event is an Input of the `q` key while the mode is
Normal; no event consumed in Insert mode terminates the iteration; and on
the `q` path raw terminal mode is disabled, the cursor is visible once the
terminal is dropped at process exit, and the process exit code is 0. -/
theorem quit_only_via_q (ls : LoopState) (ev : Event KeyEvent)
    (f : Except FetchError Payload) :
    ((iterate ls ev f).ctl = Ctl.quit ↔
      (ls.state.mode = Mode.Normal ∧ ev = Event.Input ⟨KeyCode.Char 'q'⟩))
    ∧ ((iterate ls ev f).ctl = Ctl.quit →
        ((iterate ls ev f).ls.term.rawMode = false
          ∧ (terminalDropRestore (iterate ls ev f).ls.term).cursorVisible = true
          ∧ exitCode (iterate ls ev f).ctl = some 0))
    ∧ (ls.state.mode = Mode.Insert → (iterate ls ev f).ctl = Ctl.cont) := by
  have hq := handleEvent_quit (renderPhase ls).1 ev f
  have hctl : (iterate ls ev f).ctl = (handleEvent (renderPhase ls).1 ev f).ctl := rfl
  have hterm : (iterate ls ev f).ls = (handleEvent (renderPhase ls).1 ev f).ls := rfl
  have hmode := renderPhase_mode ls
  refine ⟨?_, ?_, ?_⟩
  · rw [hctl, hq.1, hmode]
  · intro h
    rw [hctl] at h
    refine ⟨?_, rfl, ?_⟩
    · rw [hterm]
      exact hq.2.1 h
    · rw [hctl, h]
      rfl
  · intro h
    rw [hctl]
    exact hq.2.2 (by rw [hmode]; exact h)

/-- Witness for C4: from a concrete Normal-mode state, consuming `q`
quits with raw mode disabled and exit code 0. -/
theorem quit_only_via_q_witness :
    ((iterate normalLoopState (Event.Input ⟨KeyCode.Char 'q'⟩)
        (Except.ok samplePayload)).ctl = Ctl.quit)
    ∧ ((iterate normalLoopState (Event.Input ⟨KeyCode.Char 'q'⟩)
        (Except.ok samplePayload)).ls.term.rawMode = false) := by
  have h := quit_only_via_q normalLoopState (Event.Input ⟨KeyCode.Char 'q'⟩)
    (Except.ok samplePayload)
  have hq := h.1.mpr ⟨rfl, rfl⟩
  exact ⟨hq, (h.2.1 hq).1⟩

/-- Helper: the poll timeout of a worker iteration, as a plain `Nat`. -/
theorem workerIter_timeout (lastTick now0 : Nat) (polled : Option CEvent)
    (now1 now2 : Nat) (sendOk : Bool) :
    (workerIter lastTick now0 polled now1 now2 sendOk).timeout
      = tick_rate - (now0 - lastTick) := by
  unfold workerIter
  split_ifs <;> rfl

/-- C5: on every worker iteration (with the consumer alive so the `Tick`
send succeeds), the poll timeout is `max 0 (tick_interval - elapsed)` with
`tick_interval` fixed at 200 ms; a key that arrives is emitted as
`Input key` and does not by itself reset `last_tick`; and whenever the
elapsed time since `last_tick` has reached `tick_interval`, a `Tick` is
emitted after the key and `last_tick` is reset to now, while otherwise no
`Tick` is emitted and `last_tick` is kept. -/
theorem worker_iteration_spec (lastTick now0 now1 now2 : Nat)
    (polled : Option CEvent) (h0 : lastTick ≤ now0) :
    (tick_rate = 200)
    ∧ (((workerIter lastTick now0 polled now1 now2 true).timeout : Int)
        = max 0 ((tick_rate : Int) - ((now0 : Int) - (lastTick : Int))))
    ∧ (∀ k : KeyEvent, polled = some (CEvent.Key k) →
        Event.Input k ∈ (workerIter lastTick now0 polled now1 now2 true).emitted)
    ∧ ((workerIter lastTick now0 polled now1 now2 true).lastTick
        = (workerIter lastTick now0 none now1 now2 true).lastTick)
    ∧ (tick_rate ≤ now1 - lastTick →
        ((workerIter lastTick now0 polled now1 now2 true).emitted
            = (match polled with
              | some (CEvent.Key k) => [Event.Input k]
              | _ => []) ++ [Event.Tick]
          ∧ (workerIter lastTick now0 polled now1 now2 true).lastTick = now2))
    ∧ (now1 - lastTick < tick_rate →
        (Event.Tick ∉ (workerIter lastTick now0 polled now1 now2 true).emitted
          ∧ (workerIter lastTick now0 polled now1 now2 true).lastTick = lastTick)) := by
  refine ⟨rfl, ?_, ?_, ?_, ?_, ?_⟩
  · rw [workerIter_timeout]
    unfold tick_rate
    omega
  · intro k hk
    subst hk
    unfold workerIter
    split_ifs <;> simp
  · unfold workerIter
    split_ifs <;> rfl
  · intro ht
    unfold workerIter
    rw [if_pos ht, if_pos rfl]
    exact ⟨rfl, rfl⟩
  · intro ht
    unfold workerIter
    rw [if_neg (by omega)]
    constructor
    · rcases polled with _ | ce
      · simp
      · rcases ce with k | _ <;> simp
    · rfl

/-- Witness for C5: `lastTick = 0`, timeout computed at `now0 = 50` (so
timeout 150), a key polled, the tick check at `now1 = 250`, reset at
`now2 = 260`: the key is emitted, then a `Tick`, and `last_tick` becomes
260. -/
theorem worker_iteration_spec_witness :
    ((workerIter 0 50 (some (CEvent.Key ⟨KeyCode.Char 'a'⟩)) 250 260 true).timeout = 150)
    ∧ (Event.Input ⟨KeyCode.Char 'a'⟩
        ∈ (workerIter 0 50 (some (CEvent.Key ⟨KeyCode.Char 'a'⟩)) 250 260 true).emitted)
    ∧ ((workerIter 0 50 (some (CEvent.Key ⟨KeyCode.Char 'a'⟩)) 250 260 true).emitted
        = [Event.Input ⟨KeyCode.Char 'a'⟩, Event.Tick])
    ∧ ((workerIter 0 50 (some (CEvent.Key ⟨KeyCode.Char 'a'⟩)) 250 260 true).lastTick
        = 260) := by
  have h := worker_iteration_spec 0 50 250 260 (some (CEvent.Key ⟨KeyCode.Char 'a'⟩))
    (by omega)
  have h2 := h.2.2.1 ⟨KeyCode.Char 'a'⟩ rfl
  have h3 := h.2.2.2.2.1 (by unfold tick_rate; omega)
  have ht : (workerIter 0 50 (some (CEvent.Key ⟨KeyCode.Char 'a'⟩)) 250 260 true).timeout
      = 150 := by
    have := h.2.1
    omega
  exact ⟨ht, h2, h3.1, h3.2⟩

/-! ## Run-level lemmas for the loop invariants -/

theorem runLoop_first_render_false (ls : LoopState)
    (inputs : List (Event KeyEvent × Except FetchError Payload))
    (h : ls.state.is_first_render = false) :
    (countSFR (runLoop ls inputs).2 = 0)
    ∧ ((runLoop ls inputs).1.state.is_first_render = false) := by
  induction inputs generalizing ls with
  | nil => exact ⟨rfl, h⟩
  | cons p rest ih =>
    obtain ⟨ev, f⟩ := p
    have hcount : countSFR (iterate ls ev f).dispatched = 0 := by
      rw [iterate_count_sfr, h]
      rfl
    have hnext := iterate_is_first_render ls ev f
    unfold runLoop
    cases hctl : (iterate ls ev f).ctl <;> simp only [hctl]
    · have hrest := ih (iterate ls ev f).ls hnext
      refine ⟨?_, hrest.2⟩
      unfold countSFR at hcount hrest ⊢
      rw [List.countP_append, hcount, hrest.1]
    · exact ⟨hcount, hnext⟩
    · exact ⟨hcount, hnext⟩

theorem runLoop_count_le (ls : LoopState)
    (inputs : List (Event KeyEvent × Except FetchError Payload)) :
    countSFR (runLoop ls inputs).2 ≤ 1 := by
  cases inputs with
  | nil =>
    show countSFR [] ≤ 1
    exact Nat.zero_le 1
  | cons p rest =>
    obtain ⟨ev, f⟩ := p
    have hcount : countSFR (iterate ls ev f).dispatched ≤ 1 := by
      rw [iterate_count_sfr]
      split_ifs <;> omega
    have hnext := iterate_is_first_render ls ev f
    unfold runLoop
    cases hctl : (iterate ls ev f).ctl <;> simp only [hctl]
    · have hrest := runLoop_first_render_false (iterate ls ev f).ls rest hnext
      unfold countSFR at hcount hrest ⊢
      rw [List.countP_append, hrest.1]
      omega
    · exact hcount
    · exact hcount

/-- C7: a loop iteration dispatches `SetFirstRender` exactly when
`is_first_render` is true at its start; after any iteration
`is_first_render` is false; over any whole run from the initial state the
total number of `SetFirstRender` dispatches is at most one; and from any
state where `is_first_render` is already false, a run dispatches no
`SetFirstRender` at all and `is_first_render` stays false. -/
theorem set_first_render_once :
    (∀ (ls : LoopState) (ev : Event KeyEvent) (f : Except FetchError Payload),
        countSFR (iterate ls ev f).dispatched
          = if ls.state.is_first_render then 1 else 0)
    ∧ (∀ (ls : LoopState) (ev : Event KeyEvent) (f : Except FetchError Payload),
        (iterate ls ev f).ls.state.is_first_render = false)
    ∧ (∀ inputs : List (Event KeyEvent × Except FetchError Payload),
        countSFR (runLoop initialLoopState inputs).2 ≤ 1)
    ∧ (∀ (ls : LoopState) (inputs : List (Event KeyEvent × Except FetchError Payload)),
        ls.state.is_first_render = false →
          (countSFR (runLoop ls inputs).2 = 0
            ∧ (runLoop ls inputs).1.state.is_first_render = false)) :=
  ⟨iterate_count_sfr, iterate_is_first_render,
    fun inputs => runLoop_count_le initialLoopState inputs,
    fun ls inputs h => runLoop_first_render_false ls inputs h⟩

/-- Witness for C7: one concrete iteration from the initial state (where
`is_first_render` is true) dispatches `SetFirstRender` once, and a
subsequent run from the resulting state dispatches none. -/
theorem set_first_render_once_witness :
    (countSFR (iterate initialLoopState Event.Tick (Except.ok samplePayload)).dispatched = 1)
    ∧ (countSFR (runLoop (iterate initialLoopState Event.Tick
        (Except.ok samplePayload)).ls [(Event.Tick, Except.ok samplePayload)]).2 = 0) := by
  have h := set_first_render_once
  constructor
  · rw [h.1 initialLoopState Event.Tick (Except.ok samplePayload)]
    rfl
  · exact (h.2.2.2 _ [(Event.Tick, Except.ok samplePayload)]
      (h.2.1 initialLoopState Event.Tick (Except.ok samplePayload))).1

/-- Helper: a loop run never changes `active_window`. -/
theorem runLoop_active_window (ls : LoopState)
    (inputs : List (Event KeyEvent × Except FetchError Payload)) :
    (runLoop ls inputs).1.state.active_window = ls.state.active_window := by
  induction inputs generalizing ls with
  | nil => rfl
  | cons p rest ih =>
    obtain ⟨ev, f⟩ := p
    have haw := iterate_active_window ls ev f
    unfold runLoop
    cases hctl : (iterate ls ev f).ctl <;> simp only [hctl]
    · rw [ih (iterate ls ev f).ls, haw]
    · exact haw
    · exact haw

/-- C10: the reducer has no case that writes `active_window`, and in every
state reachable by running the interaction loop from the initial state,
`active_window` still equals `URL`. -/
theorem active_window_always_url :
    (∀ (s : AppState) (a : Action), (reducer s a).active_window = s.active_window)
    ∧ (∀ inputs : List (Event KeyEvent × Except FetchError Payload),
        (runLoop initialLoopState inputs).1.state.active_window = ActiveWindow.URL) := by
  constructor
  · intro s a
    cases a <;> rfl
  · intro inputs
    rw [runLoop_active_window]
    rfl

end Graffi
